import Mathlib

/-
  Verification development for the credit-ledger and billing-webhook core of a
  SaaS backend (TypeScript, Cloudflare Workers + D1/SQLite via drizzle).

  Shallow embedding conventions:
  * Each SQLite table used by the modelled code becomes a Lean structure; table
    columns not read or written by any modelled operation are omitted.
  * The database is a `DBState` record of lists (insertion order = append order).
  * Each `await db....` statement of the source becomes one pure state
    transformation.  An operation that can throw returns
    `DBState × Except String ρ`: the first component is the database state at
    the moment the function returned or threw (JavaScript has no rollback, so
    effects performed before a throw persist), and `ρ` is the resolved value of
    the returned promise.  A `Promise<void>` whose value the spec claims to be
    a number is exposed as `Option Int` (the promise resolves with `undefined`,
    embedded as `none`).
  * `crypto.randomUUID()` and `new Date().toISOString()` are environment
    inputs; they are passed in as explicit `String` parameters (`usageId`,
    `txnId`, `payId`, `now`).  Generated UUIDs are assumed fresh, so primary
    key uniqueness of freshly generated ids is not modelled; the UNIQUE indexes
    `payments_stripe_session_id_unique` and
    `payments_stripe_payment_intent_id_unique` from the migration ARE modelled,
    because webhook idempotency depends on them.
  * JavaScript `x || d` on strings / numbers (falsy: "" / 0 / undefined) is
    modelled by `jsOr` / `jsOrInt`; `x ?? 0` by `Option.getD 0`.
-/

/-- One row of the `users` table (columns not touched by the modelled
    operations — email, name, passwordHash, createdAt — are omitted). -/
structure User where
  id : String
  credits : Option Int
  plan : String
  stripeCustomerId : Option String
  stripeSubscriptionId : Option String
  subscriptionStatus : Option String
  subscriptionCurrentPeriodStart : Option String
  subscriptionCurrentPeriodEnd : Option String
  updatedAt : String
  deriving DecidableEq

/-- One row of the append-only `credit_transactions` table. -/
structure CreditTransaction where
  id : String
  userId : String
  type : String
  amount : Int
  balance : Int
  source : String
  sourceId : Option String
  description : String
  createdAt : String
  deriving DecidableEq

/-- One row of the `api_usage` table. -/
structure ApiUsage where
  id : String
  userId : String
  endpoint : String
  creditsUsed : Int
  ipAddress : Option String
  userAgent : Option String
  success : Bool
  createdAt : String
  deriving DecidableEq

/-- One row of the `payments` table. -/
structure Payment where
  id : String
  userId : String
  stripePaymentIntentId : Option String
  stripeSessionId : Option String
  amount : Int
  currency : String
  status : String
  type : String
  creditsGranted : Int
  metadata : String
  createdAt : String
  updatedAt : String
  deriving DecidableEq

/-- One row of the `subscriptions` mirror table. -/
structure Subscription where
  id : String
  userId : String
  stripeSubscriptionId : String
  stripePriceId : String
  status : String
  currentPeriodStart : String
  currentPeriodEnd : String
  cancelAtPeriodEnd : Bool
  canceledAt : Option String
  updatedAt : String
  deriving DecidableEq

/-- The D1 database, restricted to the tables the modelled code touches. -/
structure DBState where
  users : List User
  creditTransactions : List CreditTransaction
  apiUsage : List ApiUsage
  payments : List Payment
  subscriptions : List Subscription
  deriving DecidableEq

/-- The fields of a Stripe Checkout Session read by
    handleCheckoutSessionCompleted (`session.metadata` is flattened into its
    three read keys). -/
structure CheckoutSession where
  id : String
  paymentIntent : Option String
  amountTotal : Option Int
  currency : Option String
  mode : String
  metadataUserId : Option String
  metadataType : Option String
  metadataCredits : Option String
  deriving DecidableEq

/-- The fields of a Stripe Subscription event read by
    handleSubscriptionDeleted. -/
structure SubscriptionEvent where
  id : String
  customer : String
  deriving DecidableEq

/-- The fields of a Stripe Invoice read by handleInvoicePaymentSucceeded. -/
structure Invoice where
  id : String
  customer : String
  subscription : String
  paymentIntent : Option String
  amountPaid : Int
  currency : String
  deriving DecidableEq

deriving instance DecidableEq for Except

/-- JavaScript `parseInt` restricted to the nonnegative decimal strings this
    backend puts into checkout metadata; a non-numeric string gives `none`
    (parseInt would give NaN, and every use site guards with `> 0`, which NaN
    and the `none ↦ 0` collapse below fail identically). -/
def parseDecimal (s : String) : Option Int :=
  let digits := s.toList
  if digits ≠ [] ∧ digits.all Char.isDigit then
    some (Int.ofNat (digits.foldl (fun n c => 10 * n + (c.toNat - 48)) 0))
  else none

/-- JavaScript `o || dflt` for strings: both `undefined` and `""` are falsy. -/
def jsOr (o : Option String) (dflt : String) : String :=
  match o with
  | some s => if s == "" then dflt else s
  | none => dflt

/-- JavaScript `o || dflt` for numbers: both `undefined` and `0` are falsy. -/
def jsOrInt (o : Option Int) (dflt : Int) : Int :=
  match o with
  | some n => if n == 0 then dflt else n
  | none => dflt

/-- JavaScript truthiness filter for an optional string (`if (!x) return`). -/
def presentString : Option String → Option String
  | some s => if s == "" then none else some s
  | none => none

/-- Models `db.select().from(users).where(eq(users.id, userId)).get()`. -/
def findUser (db : DBState) (userId : String) : Option User :=
  db.users.find? (fun u => u.id == userId)

/-- Models the select by `users.stripeCustomerId` (SQL `=` against NULL is
    not-true, hence the `some`). -/
def findUserByCustomerId (db : DBState) (customerId : String) : Option User :=
  db.users.find? (fun u => u.stripeCustomerId == some customerId)

/-- Models `db.update(users).set(...).where(eq(users.id, userId))`. -/
def updateUsersWhere (db : DBState) (userId : String) (f : User → User) : DBState :=
  { db with users := db.users.map (fun u => if u.id == userId then f u else u) }

/-- Models `db.update(payments).set(...).where(...)`. -/
def updatePaymentsWhere (db : DBState) (p : Payment → Bool) (f : Payment → Payment) : DBState :=
  { db with payments := db.payments.map (fun q => if p q then f q else q) }

/-- True when inserting `p` would violate `payments_stripe_session_id_unique`
    or `payments_stripe_payment_intent_id_unique` (SQLite UNIQUE ignores
    NULLs, hence the `isSome` guards). -/
def paymentConflict (db : DBState) (p : Payment) : Bool :=
  db.payments.any (fun q =>
    (p.stripeSessionId.isSome && q.stripeSessionId == p.stripeSessionId) ||
    (p.stripePaymentIntentId.isSome && q.stripePaymentIntentId == p.stripePaymentIntentId))

/-- Models `db.insert(payments).values(p)`: throws on a UNIQUE-index
    violation, otherwise appends the row. -/
def insertPayment (db : DBState) (p : Payment) : Except String DBState :=
  if paymentConflict db p then Except.error "UNIQUE constraint failed"
  else Except.ok { db with payments := db.payments ++ [p] }

namespace CreditManager

/-- CreditManager.checkCredits (src/lib/credits.ts:35-38).  The source returns
    only a boolean and issues a single SELECT; the state is threaded through so
    that read-only-ness is a provable statement rather than a convention. -/
def checkCredits (db : DBState) (userId : String) (requiredCredits : Int) :
    DBState × Bool :=
  match findUser db userId with
  | some user => (db, decide (requiredCredits ≤ user.credits.getD 0))
  | none => (db, false)

/-- CreditManager.deductCredits (src/lib/credits.ts:40-94).  The TypeScript
    declared return type is `Promise<void>`: on success the promise resolves
    with `undefined`, exposed here as `Option Int := none` so that claims about
    a returned balance are statable.  The throw happens before any write, so
    the error branch returns the incoming state. -/
def deductCredits (db : DBState) (userId : String) (amount : Int) (endpoint : String)
    (ipAddress userAgent sourceId : Option String)
    (usageId txnId now : String) : DBState × Except String (Option Int) :=
  match findUser db userId with
  | none => (db, Except.error "Insufficient credits")
  | some user =>
    if user.credits.getD 0 < amount then
      (db, Except.error "Insufficient credits")
    else
      let newBalance := user.credits.getD 0 - amount
      let db1 := updateUsersWhere db userId
        (fun u => { u with credits := some newBalance, updatedAt := now })
      let db2 := { db1 with apiUsage := db1.apiUsage ++
        [({ id := usageId, userId := userId, endpoint := endpoint, creditsUsed := amount,
            ipAddress := ipAddress, userAgent := userAgent, success := true,
            createdAt := now } : ApiUsage)] }
      let db3 := { db2 with creditTransactions := db2.creditTransactions ++
        [({ id := txnId, userId := userId, type := "spent", amount := -amount,
            balance := newBalance, source := "api_usage",
            sourceId := some (jsOr sourceId usageId),
            description := "Credits used for " ++ endpoint,
            createdAt := now } : CreditTransaction)] }
      (db3, Except.ok none)

/-- CreditManager.addCredits (src/lib/credits.ts:101-141).  The source's
    default arguments (`source = 'purchase'`) are passed explicitly by
    callers in this embedding. -/
def addCredits (db : DBState) (userId : String) (amount : Int) (source : String)
    (sourceId : Option String) (description : Option String)
    (txnId now : String) : DBState × Except String Unit :=
  match findUser db userId with
  | none => (db, Except.error "User not found")
  | some user =>
    let newBalance := user.credits.getD 0 + amount
    let db1 := updateUsersWhere db userId
      (fun u => { u with credits := some newBalance, updatedAt := now })
    let db2 := { db1 with creditTransactions := db1.creditTransactions ++
      [({ id := txnId, userId := userId, type := "earned", amount := amount,
          balance := newBalance, source := source, sourceId := sourceId,
          description := jsOr description (toString amount ++ " credits added from " ++ source),
          createdAt := now } : CreditTransaction)] }
    (db2, Except.ok ())

/-- CreditManager.resetCreditsForPlan (src/lib/credits.ts:143-168).  Note:
    the logged transaction's `amount` and `balance` are both `planCredits`
    verbatim from the source; no existence check is performed on the user. -/
def resetCreditsForPlan (db : DBState) (userId : String) (planCredits : Int)
    (reason : String) (txnId now : String) : DBState :=
  let db1 := updateUsersWhere db userId
    (fun u => { u with credits := some planCredits, updatedAt := now })
  { db1 with creditTransactions := db1.creditTransactions ++
    [({ id := txnId, userId := userId, type := "earned", amount := planCredits,
        balance := planCredits, source := "subscription", sourceId := none,
        description := "Credits reset to " ++ toString planCredits ++ " for " ++ reason,
        createdAt := now } : CreditTransaction)] }

end CreditManager

/-- One pricing plan from PRICING_PLANS (src/lib/stripe.ts); only the fields
    read by the webhook handlers are kept.  List order is JavaScript object
    insertion order: free, starter, pro, enterprise. -/
structure PricingPlan where
  id : String
  credits : Int
  stripePriceId : String
  deriving DecidableEq

def PRICING_PLANS : List PricingPlan :=
  [ { id := "free", credits := 3, stripePriceId := "" },
    { id := "starter", credits := 50, stripePriceId := "price_starter_monthly" },
    { id := "pro", credits := 150, stripePriceId := "price_pro_monthly" },
    { id := "enterprise", credits := 500, stripePriceId := "price_enterprise_monthly" } ]

/-- Models `JSON.stringify(session.metadata)`; the resulting string is opaque
    to every modelled operation and every claim. -/
def stringifyCheckoutMetadata (s : CheckoutSession) : String :=
  String.intercalate "," [jsOr s.metadataUserId "", jsOr s.metadataType "", jsOr s.metadataCredits ""]

/-- The payments row built by handleCheckoutSessionCompleted
    (src/routes/webhooks.ts:78-90); `creditsGranted` takes the column
    default 0 because the INSERT does not set it. -/
def checkoutPaymentRecord (s : CheckoutSession) (userId payId now : String) : Payment :=
  { id := payId, userId := userId,
    stripeSessionId := some s.id,
    stripePaymentIntentId := s.paymentIntent,
    amount := jsOrInt s.amountTotal 0,
    currency := jsOr s.currency "usd",
    status := "succeeded",
    type := if s.mode == "subscription" then "subscription" else "credits",
    creditsGranted := 0,
    metadata := stringifyCheckoutMetadata s,
    createdAt := now, updatedAt := now }

/-- handleCheckoutSessionCompleted (src/routes/webhooks.ts:71-107). -/
def handleCheckoutSessionCompleted (s : CheckoutSession) (db : DBState)
    (payId txnId now : String) : DBState × Except String Unit :=
  match presentString s.metadataUserId with
  | none => (db, Except.ok ())
  | some userId =>
    match insertPayment db (checkoutPaymentRecord s userId payId now) with
    | Except.error e => (db, Except.error e)
    | Except.ok db1 =>
      if s.mode == "payment" && s.metadataType == some "credits" then
        let credits := (parseDecimal (jsOr s.metadataCredits "0")).getD 0
        if 0 < credits then
          match CreditManager.addCredits db1 userId credits "purchase" none none txnId now with
          | (db2, Except.error e) => (db2, Except.error e)
          | (db2, Except.ok _) =>
            (updatePaymentsWhere db2 (fun p => p.stripeSessionId == some s.id)
               (fun p => { p with creditsGranted := credits, updatedAt := now }),
             Except.ok ())
        else (db1, Except.ok ())
      else (db1, Except.ok ())

/-- handleSubscriptionDeleted (src/routes/webhooks.ts:177-205). -/
def handleSubscriptionDeleted (ev : SubscriptionEvent) (db : DBState) (now : String) :
    DBState :=
  match findUserByCustomerId db ev.customer with
  | none => db
  | some user =>
    let db1 := updateUsersWhere db user.id
      (fun u =>
        { u with
          plan := "free"
          subscriptionStatus := some "canceled"
          updatedAt := now })
    let newSubs := db1.subscriptions.map
      (fun sub =>
        if sub.stripeSubscriptionId == ev.id then
          { sub with status := "canceled", canceledAt := some now, updatedAt := now }
        else sub)
    { db1 with subscriptions := newSubs }

/-- The payments row built by handleInvoicePaymentSucceeded
    (src/routes/webhooks.ts:247-262); `creditsGranted` is hard-coded 0 by the
    source, and the metadata JSON is opaque to every claim. -/
def invoicePaymentRecord (inv : Invoice) (userId payId now : String) : Payment :=
  { id := payId, userId := userId,
    stripePaymentIntentId := inv.paymentIntent,
    stripeSessionId := none,
    amount := inv.amountPaid,
    currency := inv.currency,
    status := "succeeded",
    type := "subscription",
    creditsGranted := 0,
    metadata := "invoiceId:" ++ inv.id ++ ",subscriptionId:" ++ inv.subscription,
    createdAt := now, updatedAt := now }

/-- handleInvoicePaymentSucceeded (src/routes/webhooks.ts:207-263).  Note the
    source updates `users.credits` directly (no CreditManager call, no
    credit_transactions row) before inserting the payments row. -/
def handleInvoicePaymentSucceeded (inv : Invoice) (db : DBState)
    (payId now : String) : DBState × Except String Unit :=
  match findUserByCustomerId db inv.customer with
  | none => (db, Except.ok ())
  | some user =>
    let subRow := db.subscriptions.find? (fun s => s.stripeSubscriptionId == inv.subscription)
    let db1 :=
      match subRow with
      | some sub =>
        let creditsToGrant :=
          match PRICING_PLANS.find? (fun plan => plan.stripePriceId == sub.stripePriceId) with
          | some plan => plan.credits
          | none => 0
        if 0 < creditsToGrant then
          updateUsersWhere db user.id
            (fun u => { u with credits := some creditsToGrant, updatedAt := now })
        else db
      | none => db
    match insertPayment db1 (invoicePaymentRecord inv user.id payId now) with
    | Except.error e => (db1, Except.error e)
    | Except.ok db2 => (db2, Except.ok ())

/-- Current denormalized balance of an account (`users.credits ?? 0`;
    0 for a missing account). -/
def userBalance (db : DBState) (userId : String) : Int :=
  match findUser db userId with
  | some u => u.credits.getD 0
  | none => 0

/-- The account's ledger rows, in insertion order. -/
def ledgerTxns (db : DBState) (userId : String) : List CreditTransaction :=
  db.creditTransactions.filter (fun t => t.userId == userId)

/-- Sum of LedgerEntry.amount over the account's ledger rows. -/
def ledgerSum (db : DBState) (userId : String) : Int :=
  ((ledgerTxns db userId).map (fun t => t.amount)).sum

/-- The spec's Account invariant: creditBalance is a nonnegative integer and
    equals the sum of the account's ledger amounts. -/
def creditInvariant (db : DBState) (userId : String) : Prop :=
  0 ≤ userBalance db userId ∧ userBalance db userId = ledgerSum db userId

instance (db : DBState) (userId : String) : Decidable (creditInvariant db userId) := by
  unfold creditInvariant
  infer_instance

/-- The explicit arguments of one deductCredits call (environment inputs
    `usageId`, `txnId`, `now` included). -/
structure DebitArgs where
  userId : String
  amount : Int
  endpoint : String
  ipAddress : Option String
  userAgent : Option String
  sourceId : Option String
  usageId : String
  txnId : String
  now : String
  deriving DecidableEq

/-- Progress of one in-flight deductCredits call, between its await points. -/
inductive DebitPhase where
  | start
  | checked (newBalance : Int)
  | updated (newBalance : Int)
  | usageLogged (newBalance : Int)
  | done (result : Except String Unit)
  deriving DecidableEq

/-- The four await-separated database statements of deductCredits
    (src/lib/credits.ts:40-94) as a thread-local step function: `.start`
    performs the SELECT plus the synchronous balance check, `.checked` the
    users UPDATE, `.updated` the api_usage INSERT, `.usageLogged` the
    credit_transactions INSERT.  The source opens no transaction, so between
    any two of these statements another request's statements may run. -/
def debitStep (a : DebitArgs) (db : DBState) : DebitPhase → DBState × DebitPhase
  | .start =>
    match findUser db a.userId with
    | none => (db, .done (Except.error "Insufficient credits"))
    | some user =>
      if user.credits.getD 0 < a.amount then
        (db, .done (Except.error "Insufficient credits"))
      else
        (db, .checked (user.credits.getD 0 - a.amount))
  | .checked nb =>
    (updateUsersWhere db a.userId (fun u => { u with credits := some nb, updatedAt := a.now }),
     .updated nb)
  | .updated nb =>
    ({ db with apiUsage := db.apiUsage ++
      [({ id := a.usageId, userId := a.userId, endpoint := a.endpoint,
          creditsUsed := a.amount, ipAddress := a.ipAddress, userAgent := a.userAgent,
          success := true, createdAt := a.now } : ApiUsage)] },
     .usageLogged nb)
  | .usageLogged nb =>
    ({ db with creditTransactions := db.creditTransactions ++
      [({ id := a.txnId, userId := a.userId, type := "spent", amount := -a.amount,
          balance := nb, source := "api_usage", sourceId := some (jsOr a.sourceId a.usageId),
          description := "Credits used for " ++ a.endpoint,
          createdAt := a.now } : CreditTransaction)] },
     .done (Except.ok ()))
  | .done r => (db, .done r)

/-- Run two concurrent deductCredits calls under a schedule: `true` steps the
    first thread, `false` the second; a finished thread ignores its steps. -/
def runTwo (a1 a2 : DebitArgs) : List Bool → DBState × DebitPhase × DebitPhase →
    DBState × DebitPhase × DebitPhase
  | [], s => s
  | b :: rest, (db, p1, p2) =>
    if b then
      let r := debitStep a1 db p1
      runTwo a1 a2 rest (r.1, r.2, p2)
    else
      let r := debitStep a2 db p2
      runTwo a1 a2 rest (r.1, p1, r.2)

/-- Iterated debitStep, to relate the step machine to deductCredits. -/
def stepN (a : DebitArgs) : Nat → DBState × DebitPhase → DBState × DebitPhase
  | 0, s => s
  | n + 1, s => stepN a n (debitStep a s.1 s.2)

/-- One core Accounting Service operation together with its environment
    inputs (fresh ids and clock readings). -/
inductive CoreOp where
  | debit (userId : String) (amount : Int) (endpoint : String)
      (ipAddress userAgent sourceId : Option String) (usageId txnId now : String)
  | credit (userId : String) (amount : Int) (source : String)
      (sourceId description : Option String) (txnId now : String)

/-- The database state after running one operation to completion (whether it
    returned or threw; a throw leaves the state it had at the throw). -/
def applyOp (db : DBState) : CoreOp → DBState
  | .debit userId amount endpoint ip ua sid usageId txnId now =>
    (CreditManager.deductCredits db userId amount endpoint ip ua sid usageId txnId now).1
  | .credit userId amount source sid descr txnId now =>
    (CreditManager.addCredits db userId amount source sid descr txnId now).1

def applyOps (db : DBState) (ops : List CoreOp) : DBState :=
  ops.foldl applyOp db

/-- Side condition for the amended invariant claim: credited amounts are
    nonnegative (every call site in the repository passes a positive
    constant); debit needs no side condition. -/
def opAmountOk : CoreOp → Prop
  | .debit _ _ _ _ _ _ _ _ _ => True
  | .credit _ amount _ _ _ _ _ => 0 ≤ amount

instance : (op : CoreOp) → Decidable (opAmountOk op)
  | .debit _ _ _ _ _ _ _ _ _ => Decidable.isTrue trivial
  | .credit _ amount _ _ _ _ _ => inferInstanceAs (Decidable (0 ≤ amount))

/-- A user fixture: account u1, customer id cus_1, subscription sub_1. -/
def sampleUser (credits : Int) : User :=
  { id := "u1", credits := some credits, plan := "pro",
    stripeCustomerId := some "cus_1", stripeSubscriptionId := some "sub_1",
    subscriptionStatus := some "active",
    subscriptionCurrentPeriodStart := none, subscriptionCurrentPeriodEnd := none,
    updatedAt := "t0" }

/-- A subscription-mirror fixture mapping sub_1 to the pro price. -/
def proMirror : Subscription :=
  { id := "s1", userId := "u1", stripeSubscriptionId := "sub_1",
    stripePriceId := "price_pro_monthly", status := "active",
    currentPeriodStart := "t0", currentPeriodEnd := "t9",
    cancelAtPeriodEnd := false, canceledAt := none, updatedAt := "t0" }

/-- Fixture: u1 holds 5 credits, consistently backed by one earned ledger row
    of +5; the pro mirror row is present. -/
def dbFive : DBState :=
  { users := [sampleUser 5],
    creditTransactions :=
      [{ id := "t1", userId := "u1", type := "earned", amount := 5, balance := 5,
         source := "purchase", sourceId := none, description := "seed", createdAt := "t0" }],
    apiUsage := [], payments := [], subscriptions := [proMirror] }

/-- Fixture: u1 holds 3 credits, consistently backed by one earned ledger row
    of +3; no payments yet. -/
def dbThree : DBState :=
  { users := [sampleUser 3],
    creditTransactions :=
      [{ id := "t1", userId := "u1", type := "earned", amount := 3, balance := 3,
         source := "purchase", sourceId := none, description := "seed", createdAt := "t0" }],
    apiUsage := [], payments := [], subscriptions := [] }

/-- The checkout-completed event for the $12.99 / 50-credit package bought by
    u1 (spec section 8 scenario). -/
def session50 : CheckoutSession :=
  { id := "cs_1", paymentIntent := some "pi_2", amountTotal := some 1299,
    currency := some "usd", mode := "payment",
    metadataUserId := some "u1", metadataType := some "credits",
    metadataCredits := some "50" }

/-- The invoice-payment-succeeded event for u1's subscription sub_1. -/
def invoicePro : Invoice :=
  { id := "in_1", customer := "cus_1", subscription := "sub_1",
    paymentIntent := some "pi_1", amountPaid := 1999, currency := "usd" }

/-- The subscription-deleted event for u1's subscription. -/
def subDeletedEvent : SubscriptionEvent :=
  { id := "sub_1", customer := "cus_1" }

/-- A sample sequence of core operations: one debit of 2, one credit of 10. -/
def opsSample : List CoreOp :=
  [CoreOp.debit "u1" 2 "ep" none none none "ux1" "tx1" "t1",
   CoreOp.credit "u1" 10 "purchase" none none "tx2" "t2"]

/-- Arguments of the first of the two concurrent debit(2) calls. -/
def debitArgsA : DebitArgs :=
  { userId := "u1", amount := 2, endpoint := "ep", ipAddress := none,
    userAgent := none, sourceId := none, usageId := "ua1", txnId := "ta1", now := "t1" }

/-- Arguments of the second of the two concurrent debit(2) calls. -/
def debitArgsB : DebitArgs :=
  { userId := "u1", amount := 2, endpoint := "ep", ipAddress := none,
    userAgent := none, sourceId := none, usageId := "ub1", txnId := "tb1", now := "t1" }

theorem find?_id_map_update (l : List User) (tid uid : String) (f : User → User)
    (hf : ∀ u, (f u).id = u.id) :
    (l.map (fun u => if u.id == tid then f u else u)).find? (fun u => u.id == uid)
      = (l.find? (fun u => u.id == uid)).map (fun u => if u.id == tid then f u else u) := by
  induction l with
  | nil => rfl
  | cons a l ih =>
    have hid : ((if a.id == tid then f a else a).id == uid) = (a.id == uid) := by
      by_cases h : (a.id == tid) = true
      · simp [h, hf]
      · simp [h]
    simp only [List.map_cons, List.find?_cons, hid]
    cases hau : (a.id == uid) with
    | true => rfl
    | false => exact ih

theorem findUser_updateUsersWhere (db : DBState) (tid uid : String) (f : User → User)
    (hf : ∀ u, (f u).id = u.id) :
    findUser (updateUsersWhere db tid f) uid
      = (findUser db uid).map (fun u => if u.id == tid then f u else u) :=
  find?_id_map_update db.users tid uid f hf

theorem userBalance_of_mapped (dbA db : DBState) (tid : String) (f : User → User)
    (hf : ∀ u, (f u).id = u.id)
    (husers : dbA.users = db.users.map (fun u => if u.id == tid then f u else u))
    (uid : String) :
    userBalance dbA uid
      = match findUser db uid with
        | some w => (if w.id == tid then f w else w).credits.getD 0
        | none => 0 := by
  unfold userBalance findUser
  rw [husers, find?_id_map_update db.users tid uid f hf]
  cases db.users.find? (fun v => v.id == uid) <;> rfl

theorem ledgerSum_append (db : DBState) (t : CreditTransaction) (uid : String) :
    ledgerSum { db with creditTransactions := db.creditTransactions ++ [t] } uid
      = ledgerSum db uid + (if t.userId == uid then t.amount else 0) := by
  unfold ledgerSum ledgerTxns
  by_cases h : (t.userId == uid) = true <;> simp [List.filter_append, h]

/-- CreditManager.checkCredits never mutates and, for an existing account,
    answers exactly the comparison `required ≤ balance` (claim C8). -/
theorem checkBalance_iff_and_readonly (db : DBState) (userId : String) (required : Int)
    (u : User) (hu : findUser db userId = some u) :
    (CreditManager.checkCredits db userId required).1 = db ∧
    ((CreditManager.checkCredits db userId required).2 = true ↔ required ≤ u.credits.getD 0) := by
  unfold CreditManager.checkCredits
  rw [hu]
  simp

theorem checkBalance_iff_and_readonly_witness :
    (CreditManager.checkCredits dbThree "u1" 2).1 = dbThree ∧
    ((CreditManager.checkCredits dbThree "u1" 2).2 = true ↔ 2 ≤ (sampleUser 3).credits.getD 0) :=
  checkBalance_iff_and_readonly dbThree "u1" 2 (sampleUser 3) (by decide)

/-- CreditManager.addCredits on a missing account throws "User not found"
    and leaves the database unchanged (claim C9). -/
theorem addCredits_user_not_found (db : DBState) (userId : String) (amount : Int)
    (source : String) (sid descr : Option String) (txnId now : String)
    (h : findUser db userId = none) :
    CreditManager.addCredits db userId amount source sid descr txnId now
      = (db, Except.error "User not found") := by
  unfold CreditManager.addCredits
  rw [h]

theorem addCredits_user_not_found_witness :
    CreditManager.addCredits dbThree "nobody" 5 "purchase" none none "t9" "n9"
      = (dbThree, Except.error "User not found") :=
  addCredits_user_not_found dbThree "nobody" 5 "purchase" none none "t9" "n9" (by decide)

/-- CreditManager.checkCredits on a missing account returns false (and, the
    source having no throwing statement on that path, cannot raise; the
    embedding's total return type records this) (claim C10). -/
theorem checkBalance_missing_user_false (db : DBState) (userId : String) (required : Int)
    (h : findUser db userId = none) :
    CreditManager.checkCredits db userId required = (db, false) := by
  unfold CreditManager.checkCredits
  rw [h]

theorem checkBalance_missing_user_false_witness :
    CreditManager.checkCredits dbThree "nobody" 7 = (dbThree, false) :=
  checkBalance_missing_user_false dbThree "nobody" 7 (by decide)

theorem deductCredits_noUser (db : DBState) (userId : String) (amount : Int)
    (endpoint : String) (ip ua sid : Option String) (usageId txnId now : String)
    (h : findUser db userId = none) :
    CreditManager.deductCredits db userId amount endpoint ip ua sid usageId txnId now
      = (db, Except.error "Insufficient credits") := by
  unfold CreditManager.deductCredits
  rw [h]

theorem deductCredits_insufficient (db : DBState) (userId : String) (amount : Int)
    (endpoint : String) (ip ua sid : Option String) (usageId txnId now : String)
    (u : User) (hfind : findUser db userId = some u)
    (hlt : u.credits.getD 0 < amount) :
    CreditManager.deductCredits db userId amount endpoint ip ua sid usageId txnId now
      = (db, Except.error "Insufficient credits") := by
  unfold CreditManager.deductCredits
  rw [hfind]
  simp [hlt]

theorem deductCredits_success_eq (db : DBState) (userId : String) (amount : Int)
    (endpoint : String) (ip ua sid : Option String) (usageId txnId now : String)
    (u : User) (hfind : findUser db userId = some u)
    (hge : ¬ u.credits.getD 0 < amount) :
    CreditManager.deductCredits db userId amount endpoint ip ua sid usageId txnId now
      = ({ users := db.users.map (fun v =>
             if v.id == userId then
               { v with credits := some (u.credits.getD 0 - amount), updatedAt := now }
             else v),
           creditTransactions := db.creditTransactions ++
             [{ id := txnId, userId := userId, type := "spent", amount := -amount,
                balance := u.credits.getD 0 - amount, source := "api_usage",
                sourceId := some (jsOr sid usageId),
                description := "Credits used for " ++ endpoint, createdAt := now }],
           apiUsage := db.apiUsage ++
             [{ id := usageId, userId := userId, endpoint := endpoint, creditsUsed := amount,
                ipAddress := ip, userAgent := ua, success := true, createdAt := now }],
           payments := db.payments,
           subscriptions := db.subscriptions }, Except.ok none) := by
  unfold CreditManager.deductCredits
  rw [hfind]
  simp [hge, updateUsersWhere]

/-- CreditManager.deductCredits on an existing account throws exactly when the
    balance is below the requested amount, and a throw leaves the database
    untouched (claim C3). -/
theorem debit_insufficient_iff (db : DBState) (userId : String) (amount : Int)
    (endpoint : String) (ip ua sid : Option String) (usageId txnId now : String)
    (u : User) (hfind : findUser db userId = some u) :
    ((CreditManager.deductCredits db userId amount endpoint ip ua sid usageId txnId now).2
        = Except.error "Insufficient credits"
      ↔ u.credits.getD 0 < amount) ∧
    (u.credits.getD 0 < amount →
      (CreditManager.deductCredits db userId amount endpoint ip ua sid usageId txnId now).1
        = db) := by
  by_cases hlt : u.credits.getD 0 < amount
  · rw [deductCredits_insufficient db userId amount endpoint ip ua sid usageId txnId now u
      hfind hlt]
    simp [hlt]
  · rw [deductCredits_success_eq db userId amount endpoint ip ua sid usageId txnId now u
      hfind hlt]
    simp [hlt]

theorem debit_insufficient_iff_witness :
    ((CreditManager.deductCredits dbThree "u1" 5 "ep" none none none "u2" "t2" "t1").2
        = Except.error "Insufficient credits"
      ↔ (sampleUser 3).credits.getD 0 < 5) ∧
    ((sampleUser 3).credits.getD 0 < 5 →
      (CreditManager.deductCredits dbThree "u1" 5 "ep" none none none "u2" "t2" "t1").1
        = dbThree) :=
  debit_insufficient_iff dbThree "u1" 5 "ep" none none none "u2" "t2" "t1" (sampleUser 3)
    (by decide)

/-- CreditManager.deductCredits on sufficient balance decrements the balance,
    writes exactly one spent ledger row with the signed amount and resulting
    balance, records one api_usage row — and resolves with no value: the
    TypeScript return type is Promise of void, so no balance is returned to
    the caller (amended claim C4). -/
theorem debit_success_effects (db : DBState) (userId : String) (amount : Int)
    (endpoint : String) (ip ua sid : Option String) (usageId txnId now : String)
    (u : User) (hfind : findUser db userId = some u)
    (hge : ¬ u.credits.getD 0 < amount) :
    (CreditManager.deductCredits db userId amount endpoint ip ua sid usageId txnId now).2
      = Except.ok none ∧
    userBalance
      (CreditManager.deductCredits db userId amount endpoint ip ua sid usageId txnId now).1
      userId = u.credits.getD 0 - amount ∧
    (CreditManager.deductCredits db userId amount endpoint ip ua sid usageId txnId
        now).1.creditTransactions
      = db.creditTransactions ++
        [{ id := txnId, userId := userId, type := "spent", amount := -amount,
           balance := u.credits.getD 0 - amount, source := "api_usage",
           sourceId := some (jsOr sid usageId),
           description := "Credits used for " ++ endpoint, createdAt := now }] ∧
    (CreditManager.deductCredits db userId amount endpoint ip ua sid usageId txnId
        now).1.apiUsage
      = db.apiUsage ++
        [{ id := usageId, userId := userId, endpoint := endpoint, creditsUsed := amount,
           ipAddress := ip, userAgent := ua, success := true, createdAt := now }] := by
  rw [deductCredits_success_eq db userId amount endpoint ip ua sid usageId txnId now u hfind hge]
  refine ⟨rfl, ?_, rfl, rfl⟩
  have hfind' : db.users.find? (fun v => v.id == userId) = some u := hfind
  have hu_id : (u.id == userId) = true := by simpa using List.find?_some hfind'
  rw [userBalance_of_mapped _ db userId
      (fun v => { v with credits := some (u.credits.getD 0 - amount), updatedAt := now })
      (fun v => rfl) rfl userId, hfind]
  simp [hu_id]

theorem debit_success_effects_witness :
    (CreditManager.deductCredits dbThree "u1" 2 "ep" none none none "u2" "t2" "t1").2
      = Except.ok none ∧
    userBalance (CreditManager.deductCredits dbThree "u1" 2 "ep" none none none "u2" "t2" "t1").1
      "u1" = (sampleUser 3).credits.getD 0 - 2 ∧
    (CreditManager.deductCredits dbThree "u1" 2 "ep" none none none "u2" "t2"
        "t1").1.creditTransactions
      = dbThree.creditTransactions ++
        [{ id := "t2", userId := "u1", type := "spent", amount := -2,
           balance := (sampleUser 3).credits.getD 0 - 2, source := "api_usage",
           sourceId := some (jsOr none "u2"),
           description := "Credits used for " ++ "ep", createdAt := "t1" }] ∧
    (CreditManager.deductCredits dbThree "u1" 2 "ep" none none none "u2" "t2" "t1").1.apiUsage
      = dbThree.apiUsage ++
        [{ id := "u2", userId := "u1", endpoint := "ep", creditsUsed := 2,
           ipAddress := none, userAgent := none, success := true, createdAt := "t1" }] :=
  debit_success_effects dbThree "u1" 2 "ep" none none none "u2" "t2" "t1" (sampleUser 3)
    (by decide) (by decide)

/-- The claim that debit returns the new balance fails at a concrete input:
    the promise resolves with no value (undefined), not with the new balance
    3 (counterexample for claim C4). -/
theorem debit_returns_no_balance :
    (CreditManager.deductCredits dbFive "u1" 2 "ep" none none none "u2" "t2" "t1").2
      = Except.ok none ∧
    (CreditManager.deductCredits dbFive "u1" 2 "ep" none none none "u2" "t2" "t1").2
      ≠ Except.ok (some (userBalance
          (CreditManager.deductCredits dbFive "u1" 2 "ep" none none none "u2" "t2" "t1").1
          "u1")) := by
  constructor
  · decide
  · decide

theorem findUser_of_mapped (dbA db : DBState) (tid : String) (f : User → User)
    (hf : ∀ u, (f u).id = u.id)
    (husers : dbA.users = db.users.map (fun u => if u.id == tid then f u else u))
    (uid : String) :
    findUser dbA uid = (findUser db uid).map (fun u => if u.id == tid then f u else u) := by
  unfold findUser
  rw [husers]
  exact find?_id_map_update db.users tid uid f hf

/-- handleSubscriptionDeleted sets the plan to free and the subscription
    status to canceled, and leaves both the credit balance and the ledger rows
    exactly as they were (claim C7). -/
theorem subscription_deleted_frame (ev : SubscriptionEvent) (db : DBState) (now : String)
    (u : User) (hu : findUserByCustomerId db ev.customer = some u) :
    (handleSubscriptionDeleted ev db now).creditTransactions = db.creditTransactions ∧
    userBalance (handleSubscriptionDeleted ev db now) u.id = userBalance db u.id ∧
    (findUser (handleSubscriptionDeleted ev db now) u.id).map (fun v => v.plan)
      = some "free" ∧
    (findUser (handleSubscriptionDeleted ev db now) u.id).map (fun v => v.subscriptionStatus)
      = some (some "canceled") := by
  have hmem : u ∈ db.users := List.mem_of_find?_eq_some hu
  have hsome : (db.users.find? (fun v => v.id == u.id)).isSome := by
    rw [List.find?_isSome]
    exact ⟨u, hmem, by simp⟩
  obtain ⟨w, hw0⟩ := Option.isSome_iff_exists.mp hsome
  have hw : findUser db u.id = some w := hw0
  have hw_eq : w.id = u.id := by simpa using List.find?_some hw0
  have hXfind : findUser (handleSubscriptionDeleted ev db now) u.id
      = (findUser db u.id).map (fun v =>
          if v.id == u.id then
            { v with plan := "free", subscriptionStatus := some "canceled", updatedAt := now }
          else v) := by
    apply findUser_of_mapped _ db u.id
        (fun v =>
          { v with plan := "free", subscriptionStatus := some "canceled", updatedAt := now })
        (fun v => rfl)
    unfold handleSubscriptionDeleted
    rw [hu]
    rfl
  refine ⟨?_, ?_, ?_, ?_⟩
  · unfold handleSubscriptionDeleted
    rw [hu]
    rfl
  · unfold userBalance
    rw [hXfind, hw]
    simp [hw_eq]
  · rw [hXfind, hw]
    simp [hw_eq]
  · rw [hXfind, hw]
    simp [hw_eq]

theorem subscription_deleted_frame_witness :
    (handleSubscriptionDeleted subDeletedEvent dbFive "t1").creditTransactions
      = dbFive.creditTransactions ∧
    userBalance (handleSubscriptionDeleted subDeletedEvent dbFive "t1") (sampleUser 5).id
      = userBalance dbFive (sampleUser 5).id ∧
    (findUser (handleSubscriptionDeleted subDeletedEvent dbFive "t1") (sampleUser 5).id).map
        (fun v => v.plan) = some "free" ∧
    (findUser (handleSubscriptionDeleted subDeletedEvent dbFive "t1") (sampleUser 5).id).map
        (fun v => v.subscriptionStatus) = some (some "canceled") :=
  subscription_deleted_frame subDeletedEvent dbFive "t1" (sampleUser 5) (by decide)

theorem addCredits_success_eq (db : DBState) (userId : String) (amount : Int)
    (source : String) (sid descr : Option String) (txnId now : String)
    (u : User) (hfind : findUser db userId = some u) :
    CreditManager.addCredits db userId amount source sid descr txnId now
      = ({ users := db.users.map (fun v =>
             if v.id == userId then
               { v with credits := some (u.credits.getD 0 + amount), updatedAt := now }
             else v),
           creditTransactions := db.creditTransactions ++
             [{ id := txnId, userId := userId, type := "earned", amount := amount,
                balance := u.credits.getD 0 + amount, source := source, sourceId := sid,
                description := jsOr descr (toString amount ++ " credits added from " ++ source),
                createdAt := now }],
           apiUsage := db.apiUsage, payments := db.payments,
           subscriptions := db.subscriptions }, Except.ok ()) := by
  unfold CreditManager.addCredits
  rw [hfind]
  simp [updateUsersWhere]

theorem resetCreditsForPlan_eq (db : DBState) (userId : String) (planCredits : Int)
    (reason txnId now : String) :
    CreditManager.resetCreditsForPlan db userId planCredits reason txnId now
      = { users := db.users.map (fun v =>
            if v.id == userId then { v with credits := some planCredits, updatedAt := now }
            else v),
          creditTransactions := db.creditTransactions ++
            [{ id := txnId, userId := userId, type := "earned", amount := planCredits,
               balance := planCredits, source := "subscription", sourceId := none,
               description := "Credits reset to " ++ toString planCredits ++ " for " ++ reason,
               createdAt := now }],
          apiUsage := db.apiUsage, payments := db.payments,
          subscriptions := db.subscriptions } := by
  unfold CreditManager.resetCreditsForPlan
  simp [updateUsersWhere]

theorem findUser_self_of_byCustomer (db : DBState) (cust : String) (u : User)
    (hu : findUserByCustomerId db cust = some u) :
    ∃ w, findUser db u.id = some w ∧ w.id = u.id := by
  have hmem : u ∈ db.users := List.mem_of_find?_eq_some hu
  have hsome : (db.users.find? (fun v => v.id == u.id)).isSome := by
    rw [List.find?_isSome]
    exact ⟨u, hmem, by simp⟩
  obtain ⟨w, hw0⟩ := Option.isSome_iff_exists.mp hsome
  exact ⟨w, hw0, by simpa using List.find?_some hw0⟩

theorem handleInvoicePaymentSucceeded_pro (inv : Invoice) (db : DBState) (payId now : String)
    (u : User) (sub : Subscription)
    (hu : findUserByCustomerId db inv.customer = some u)
    (hsub : db.subscriptions.find? (fun s => s.stripeSubscriptionId == inv.subscription)
      = some sub)
    (hpro : sub.stripePriceId = "price_pro_monthly") :
    handleInvoicePaymentSucceeded inv db payId now
      = (match insertPayment
            (updateUsersWhere db u.id (fun v => { v with credits := some 150, updatedAt := now }))
            (invoicePaymentRecord inv u.id payId now) with
         | Except.error e =>
            (updateUsersWhere db u.id (fun v => { v with credits := some 150, updatedAt := now }),
             Except.error e)
         | Except.ok dbB => (dbB, Except.ok ())) := by
  have hplan : PRICING_PLANS.find? (fun plan => plan.stripePriceId == "price_pro_monthly")
      = some { id := "pro", credits := 150, stripePriceId := "price_pro_monthly" } := by decide
  unfold handleInvoicePaymentSucceeded
  simp only [hu, hsub, hpro, hplan]
  simp [show (0:Int) < 150 by norm_num]

/-- Amended claim C2: resetCreditsForPlan sets the balance to exactly the
    allowance and writes one earned ledger row whose amount is the allowance
    itself, not the signed delta from the prior balance; and the
    invoice-payment-succeeded handler for a subscription mapped to the pro
    plan sets the balance to exactly 150 by a direct column update, without
    calling resetCreditsForPlan and without writing any ledger row. -/
theorem reset_and_renewal_amended :
    (∀ (db : DBState) (userId : String) (planCredits : Int) (reason txnId now : String)
        (u : User), findUser db userId = some u →
      userBalance (CreditManager.resetCreditsForPlan db userId planCredits reason txnId now)
          userId = planCredits ∧
      (CreditManager.resetCreditsForPlan db userId planCredits reason txnId
          now).creditTransactions
        = db.creditTransactions ++
          [{ id := txnId, userId := userId, type := "earned", amount := planCredits,
             balance := planCredits, source := "subscription", sourceId := none,
             description := "Credits reset to " ++ toString planCredits ++ " for " ++ reason,
             createdAt := now }]) ∧
    (∀ (inv : Invoice) (db db2 : DBState) (payId now : String) (u : User)
        (sub : Subscription),
      findUserByCustomerId db inv.customer = some u →
      db.subscriptions.find? (fun s => s.stripeSubscriptionId == inv.subscription) = some sub →
      sub.stripePriceId = "price_pro_monthly" →
      handleInvoicePaymentSucceeded inv db payId now = (db2, Except.ok ()) →
      userBalance db2 u.id = 150 ∧ db2.creditTransactions = db.creditTransactions) := by
  constructor
  · intro db userId planCredits reason txnId now u hfind
    have hfind' : db.users.find? (fun v => v.id == userId) = some u := hfind
    have hu_eq : u.id = userId := by simpa using List.find?_some hfind'
    rw [resetCreditsForPlan_eq]
    refine ⟨?_, rfl⟩
    rw [userBalance_of_mapped _ db userId
        (fun v => { v with credits := some planCredits, updatedAt := now })
        (fun v => rfl) rfl userId, hfind]
    simp [hu_eq]
  · intro inv db db2 payId now u sub hu hsub hpro hrun
    rw [handleInvoicePaymentSucceeded_pro inv db payId now u sub hu hsub hpro] at hrun
    obtain ⟨w, hw, hw_eq⟩ := findUser_self_of_byCustomer db inv.customer u hu
    cases hins : insertPayment
        (updateUsersWhere db u.id (fun v => { v with credits := some 150, updatedAt := now }))
        (invoicePaymentRecord inv u.id payId now) with
    | error e =>
      rw [hins] at hrun
      simp at hrun
    | ok dbB =>
      rw [hins] at hrun
      simp only [Prod.mk.injEq] at hrun
      obtain ⟨hdbB, -⟩ := hrun
      subst hdbB
      unfold insertPayment at hins
      by_cases hc : paymentConflict
          (updateUsersWhere db u.id (fun v => { v with credits := some 150, updatedAt := now }))
          (invoicePaymentRecord inv u.id payId now) = true
      · rw [if_pos hc] at hins
        cases hins
      · rw [if_neg hc] at hins
        have hdb2 := (Except.ok.inj hins).symm
        subst hdb2
        constructor
        · rw [userBalance_of_mapped _ db u.id
            (fun v => { v with credits := some 150, updatedAt := now })
            (fun v => rfl) (by rfl) u.id, hw]
          simp [hw_eq]
        · rfl

theorem reset_and_renewal_amended_witness :
    (userBalance (CreditManager.resetCreditsForPlan dbFive "u1" 150 "subscription_renewal"
        "t2" "t1") "u1" = 150 ∧
      (CreditManager.resetCreditsForPlan dbFive "u1" 150 "subscription_renewal"
          "t2" "t1").creditTransactions
        = dbFive.creditTransactions ++
          [{ id := "t2", userId := "u1", type := "earned", amount := 150,
             balance := 150, source := "subscription", sourceId := none,
             description := "Credits reset to " ++ toString (150 : Int) ++ " for "
               ++ "subscription_renewal",
             createdAt := "t1" }]) ∧
    (userBalance (handleInvoicePaymentSucceeded invoicePro dbFive "p1" "t1").1
        (sampleUser 5).id = 150 ∧
      (handleInvoicePaymentSucceeded invoicePro dbFive "p1" "t1").1.creditTransactions
        = dbFive.creditTransactions) := by
  constructor
  · exact reset_and_renewal_amended.1 dbFive "u1" 150 "subscription_renewal" "t2" "t1"
      (sampleUser 5) (by decide)
  · exact reset_and_renewal_amended.2 invoicePro dbFive
      (handleInvoicePaymentSucceeded invoicePro dbFive "p1" "t1").1 "p1" "t1"
      (sampleUser 5) proMirror (by decide) (by decide) (by decide) (by decide)

/-- Counterexample for claim C2: at a concrete prior balance of 5, the
    invoice-payment-succeeded renewal for the pro plan resets the balance to
    150 but writes no ledger row at all, and resetCreditsForPlan logs amount
    150, which is not the claimed signed delta 150 - 5. -/
theorem renewal_ledger_delta_refuted :
    userBalance (handleInvoicePaymentSucceeded invoicePro dbFive "p1" "t1").1 "u1" = 150 ∧
    (handleInvoicePaymentSucceeded invoicePro dbFive "p1" "t1").1.creditTransactions
      = dbFive.creditTransactions ∧
    ((CreditManager.resetCreditsForPlan dbFive "u1" 150 "subscription_renewal" "t2"
        "t1").creditTransactions.getLast?).map (fun t => t.amount) = some 150 ∧
    (150 : Int) ≠ 150 - userBalance dbFive "u1" := by
  refine ⟨by decide, by decide, by decide, by decide⟩

theorem ledgerSum_of_append (dbA db : DBState) (t : CreditTransaction) (uid : String)
    (htx : dbA.creditTransactions = db.creditTransactions ++ [t]) :
    ledgerSum dbA uid = ledgerSum db uid + (if t.userId == uid then t.amount else 0) := by
  unfold ledgerSum ledgerTxns
  rw [htx]
  by_cases h : (t.userId == uid) = true <;> simp [List.filter_append, h]

theorem creditInvariant_deduct (db : DBState) (uid userId : String) (amount : Int)
    (endpoint : String) (ip ua sid : Option String) (usageId txnId now : String)
    (h : creditInvariant db uid) :
    creditInvariant
      (CreditManager.deductCredits db userId amount endpoint ip ua sid usageId txnId now).1
      uid := by
  cases hfind : findUser db userId with
  | none =>
    rw [deductCredits_noUser db userId amount endpoint ip ua sid usageId txnId now hfind]
    exact h
  | some u =>
    by_cases hlt : u.credits.getD 0 < amount
    · rw [deductCredits_insufficient db userId amount endpoint ip ua sid usageId txnId now u
        hfind hlt]
      exact h
    · rw [deductCredits_success_eq db userId amount endpoint ip ua sid usageId txnId now u
        hfind hlt]
      unfold creditInvariant at h ⊢
      rw [userBalance_of_mapped _ db userId
          (fun v => { v with credits := some (u.credits.getD 0 - amount), updatedAt := now })
          (fun v => rfl) rfl uid,
        ledgerSum_of_append _ db _ uid rfl]
      cases hub : findUser db uid with
      | none =>
        have hne : ¬ userId = uid := by
          intro hEq
          rw [hEq] at hfind
          rw [hfind] at hub
          cases hub
        unfold userBalance at h
        rw [hub] at h
        simpa [hne] using h
      | some w =>
        have hub' : db.users.find? (fun v => v.id == uid) = some w := hub
        have hw_uid : w.id = uid := by simpa using List.find?_some hub'
        unfold userBalance at h
        rw [hub] at h
        dsimp only at h
        dsimp only
        by_cases hwu : (w.id == userId) = true
        · have hEq : userId = uid := by
            rw [← eq_of_beq hwu, hw_uid]
          subst hEq
          rw [hfind] at hub
          have hwu' : w = u := (Option.some.inj hub).symm
          subst hwu'
          have hge : amount ≤ w.credits.getD 0 := Int.not_lt.mp hlt
          obtain ⟨h1, h2⟩ := h
          rw [if_pos hwu]
          dsimp only
          simp only [beq_self_eq_true, if_true, Option.getD_some]
          constructor
          · exact sub_nonneg.mpr hge
          · rw [← h2]
            exact sub_eq_add_neg _ _
        · have hne : ¬ userId = uid := by
            intro hEq
            rw [hEq, ← hw_uid] at hwu
            simp at hwu
          rw [if_neg hwu]
          simpa [hne] using h

theorem addCredits_noUser (db : DBState) (userId : String) (amount : Int)
    (source : String) (sid descr : Option String) (txnId now : String)
    (h : findUser db userId = none) :
    CreditManager.addCredits db userId amount source sid descr txnId now
      = (db, Except.error "User not found") := by
  unfold CreditManager.addCredits
  rw [h]

theorem creditInvariant_credit (db : DBState) (uid userId : String) (amount : Int)
    (source : String) (sid descr : Option String) (txnId now : String)
    (hamount : 0 ≤ amount)
    (h : creditInvariant db uid) :
    creditInvariant
      (CreditManager.addCredits db userId amount source sid descr txnId now).1 uid := by
  cases hfind : findUser db userId with
  | none =>
    rw [addCredits_noUser db userId amount source sid descr txnId now hfind]
    exact h
  | some u =>
    rw [addCredits_success_eq db userId amount source sid descr txnId now u hfind]
    unfold creditInvariant at h ⊢
    rw [userBalance_of_mapped _ db userId
        (fun v => { v with credits := some (u.credits.getD 0 + amount), updatedAt := now })
        (fun v => rfl) rfl uid,
      ledgerSum_of_append _ db _ uid rfl]
    cases hub : findUser db uid with
    | none =>
      have hne : ¬ userId = uid := by
        intro hEq
        rw [hEq] at hfind
        rw [hfind] at hub
        cases hub
      unfold userBalance at h
      rw [hub] at h
      simpa [hne] using h
    | some w =>
      have hub' : db.users.find? (fun v => v.id == uid) = some w := hub
      have hw_uid : w.id = uid := by simpa using List.find?_some hub'
      unfold userBalance at h
      rw [hub] at h
      dsimp only at h
      dsimp only
      by_cases hwu : (w.id == userId) = true
      · have hEq : userId = uid := by
          rw [← eq_of_beq hwu, hw_uid]
        subst hEq
        rw [hfind] at hub
        have hwu' : w = u := (Option.some.inj hub).symm
        subst hwu'
        obtain ⟨h1, h2⟩ := h
        rw [if_pos hwu]
        dsimp only
        simp only [beq_self_eq_true, if_true, Option.getD_some]
        constructor
        · exact add_nonneg h1 hamount
        · rw [← h2]
      · have hne : ¬ userId = uid := by
          intro hEq
          rw [hEq, ← hw_uid] at hwu
          simp at hwu
        rw [if_neg hwu]
        simpa [hne] using h

/-- Amended claim C1: after any sequence of debit and credit operations with
    nonnegative credited amounts, an account that starts with creditBalance
    equal to the sum of its ledger amounts and nonnegative keeps both
    properties.  (Stated for debit and credit only: resetToPlanAllowance and
    the invoice-payment-succeeded handler break the sum equality, see the
    counterexample.) -/
theorem creditInvariant_applyOps (ops : List CoreOp) (db : DBState) (uid : String)
    (hops : ∀ op ∈ ops, opAmountOk op) (h : creditInvariant db uid) :
    creditInvariant (applyOps db ops) uid := by
  induction ops generalizing db with
  | nil => exact h
  | cons op rest ih =>
    have hstep : creditInvariant (applyOp db op) uid := by
      cases op with
      | debit userId amount endpoint ip ua sid usageId txnId now =>
        exact creditInvariant_deduct db uid userId amount endpoint ip ua sid usageId txnId now h
      | credit userId amount source sid descr txnId now =>
        exact creditInvariant_credit db uid userId amount source sid descr txnId now
          (hops _ (List.mem_cons_self _ _)) h
    exact ih (applyOp db op) (fun o ho => hops o (List.mem_cons_of_mem _ ho)) hstep

theorem creditInvariant_applyOps_witness :
    creditInvariant (applyOps dbThree opsSample) "u1" :=
  creditInvariant_applyOps opsSample dbThree "u1" (by decide) (by decide)

/-- Counterexample for claim C1: the invariant holds at balance 5 with one +5
    ledger row, yet a single resetToPlanAllowance(150) — one of the claim's
    core operations — leaves balance 150 against a ledger summing to 155. -/
theorem creditInvariant_broken_by_reset :
    creditInvariant dbFive "u1" ∧
    ¬ creditInvariant (CreditManager.resetCreditsForPlan dbFive "u1" 150
        "subscription_renewal" "t2" "t1") "u1" := by
  constructor
  · decide
  · decide

theorem stepN_four_eq_deductCredits (a : DebitArgs) (db : DBState) :
    stepN a 4 (db, DebitPhase.start)
      = ((CreditManager.deductCredits db a.userId a.amount a.endpoint a.ipAddress a.userAgent
            a.sourceId a.usageId a.txnId a.now).1,
         DebitPhase.done ((CreditManager.deductCredits db a.userId a.amount a.endpoint
            a.ipAddress a.userAgent a.sourceId a.usageId a.txnId a.now).2.map
              (fun _ => ()))) := by
  cases hfind : findUser db a.userId with
  | none =>
    simp [stepN, debitStep, CreditManager.deductCredits, hfind, Except.map]
  | some user =>
    by_cases hlt : user.credits.getD 0 < a.amount <;>
      simp [stepN, debitStep, CreditManager.deductCredits, hfind, hlt, updateUsersWhere,
        Except.map]

/-- Amended claim C6: the exactly-one-succeeds outcome holds when the two
    debit(2) calls happen to run serially — the first succeeds leaving balance
    1 and the second throws InsufficientCredits without changing anything —
    but the code itself provides no serialization: deductCredits runs its
    SELECT and its writes as separate non-transactional statements, and under
    an interleaved schedule both calls succeed (see the counterexample). -/
theorem serial_debits_exactly_one (db : DBState) (uid ep : String) (u : User)
    (ip ua sid : Option String) (us1 tx1 n1 us2 tx2 n2 : String)
    (hu : findUser db uid = some u) (hc : u.credits.getD 0 = 3) :
    (CreditManager.deductCredits db uid 2 ep ip ua sid us1 tx1 n1).2 = Except.ok none ∧
    userBalance (CreditManager.deductCredits db uid 2 ep ip ua sid us1 tx1 n1).1 uid = 1 ∧
    (CreditManager.deductCredits
        (CreditManager.deductCredits db uid 2 ep ip ua sid us1 tx1 n1).1 uid 2 ep ip ua sid
        us2 tx2 n2).2 = Except.error "Insufficient credits" ∧
    (CreditManager.deductCredits
        (CreditManager.deductCredits db uid 2 ep ip ua sid us1 tx1 n1).1 uid 2 ep ip ua sid
        us2 tx2 n2).1 = (CreditManager.deductCredits db uid 2 ep ip ua sid us1 tx1 n1).1 := by
  have hge : ¬ u.credits.getD 0 < 2 := by rw [hc]; norm_num
  have h1 := deductCredits_success_eq db uid 2 ep ip ua sid us1 tx1 n1 u hu hge
  have hu' : db.users.find? (fun v => v.id == uid) = some u := hu
  have hu_id : (u.id == uid) = true := by simpa using List.find?_some hu'
  have husers : (CreditManager.deductCredits db uid 2 ep ip ua sid us1 tx1 n1).1.users
      = db.users.map (fun v =>
          if v.id == uid then
            { v with credits := some (u.credits.getD 0 - 2), updatedAt := n1 }
          else v) := by
    rw [h1]
  have hfind1 : findUser (CreditManager.deductCredits db uid 2 ep ip ua sid us1 tx1 n1).1 uid
      = some { u with credits := some (u.credits.getD 0 - 2), updatedAt := n1 } := by
    rw [findUser_of_mapped _ db uid
        (fun v => { v with credits := some (u.credits.getD 0 - 2), updatedAt := n1 })
        (fun v => rfl) husers uid, hu]
    simp only [Option.map_some']
    rw [if_pos hu_id]
  have hlt1 :
      ({ u with credits := some (u.credits.getD 0 - 2), updatedAt := n1 } : User).credits.getD 0
        < 2 := by
    simp [hc]
  refine ⟨by rw [h1], ?_, ?_, ?_⟩
  · unfold userBalance
    rw [hfind1]
    simp [hc]
  · rw [deductCredits_insufficient _ uid 2 ep ip ua sid us2 tx2 n2 _ hfind1 hlt1]
  · rw [deductCredits_insufficient _ uid 2 ep ip ua sid us2 tx2 n2 _ hfind1 hlt1]

theorem serial_debits_exactly_one_witness :
    (CreditManager.deductCredits dbThree "u1" 2 "ep" none none none "ua1" "ta1" "t1").2
      = Except.ok none ∧
    userBalance (CreditManager.deductCredits dbThree "u1" 2 "ep" none none none "ua1" "ta1"
        "t1").1 "u1" = 1 ∧
    (CreditManager.deductCredits
        (CreditManager.deductCredits dbThree "u1" 2 "ep" none none none "ua1" "ta1" "t1").1
        "u1" 2 "ep" none none none "ub1" "tb1" "t1").2
      = Except.error "Insufficient credits" ∧
    (CreditManager.deductCredits
        (CreditManager.deductCredits dbThree "u1" 2 "ep" none none none "ua1" "ta1" "t1").1
        "u1" 2 "ep" none none none "ub1" "tb1" "t1").1
      = (CreditManager.deductCredits dbThree "u1" 2 "ep" none none none "ua1" "ta1" "t1").1 :=
  serial_debits_exactly_one dbThree "u1" "ep" (sampleUser 3) none none none "ua1" "ta1" "t1"
    "ub1" "tb1" "t1" (by decide) (by decide)

/-- Counterexample for claim C6: with balance 3, the interleaved schedule in
    which both calls run their SELECT before either writes lets both debit(2)
    calls succeed — the code serializes nothing.  The final balance is 1 (both
    blind writes store 1) while the account's ledger holds the seed row plus
    two -2 rows, so the audit trail no longer matches the balance either. -/
theorem concurrent_debits_both_succeed :
    (runTwo debitArgsA debitArgsB [true, false, true, true, true, false, false, false]
        (dbThree, DebitPhase.start, DebitPhase.start)).2.1
      = DebitPhase.done (Except.ok ()) ∧
    (runTwo debitArgsA debitArgsB [true, false, true, true, true, false, false, false]
        (dbThree, DebitPhase.start, DebitPhase.start)).2.2
      = DebitPhase.done (Except.ok ()) ∧
    userBalance (runTwo debitArgsA debitArgsB [true, false, true, true, true, false, false,
        false] (dbThree, DebitPhase.start, DebitPhase.start)).1 "u1" = 1 ∧
    (ledgerTxns (runTwo debitArgsA debitArgsB [true, false, true, true, true, false, false,
        false] (dbThree, DebitPhase.start, DebitPhase.start)).1 "u1").length = 3 := by
  refine ⟨by decide, by decide, by decide, by decide⟩

theorem handleCheckout_session50_eq (db0 : DBState) (p t n : String) :
    handleCheckoutSessionCompleted session50 db0 p t n
      = match insertPayment db0 (checkoutPaymentRecord session50 "u1" p n) with
        | Except.error e => (db0, Except.error e)
        | Except.ok dbA =>
          match CreditManager.addCredits dbA "u1" 50 "purchase" none none t n with
          | (db2, Except.error e) => (db2, Except.error e)
          | (db2, Except.ok _) =>
            (updatePaymentsWhere db2 (fun q => q.stripeSessionId == some "cs_1")
               (fun q => { q with creditsGranted := 50, updatedAt := n }), Except.ok ()) := by
  have hpres : presentString session50.metadataUserId = some "u1" := by decide
  have hguard : (session50.mode == "payment" && session50.metadataType == some "credits")
      = true := by decide
  have hcred : (parseDecimal (jsOr session50.metadataCredits "0")).getD 0 = 50 := by decide
  have hid : session50.id = "cs_1" := rfl
  unfold handleCheckoutSessionCompleted
  rw [hpres]
  dsimp only
  rw [hguard, hcred, hid]
  cases insertPayment db0 (checkoutPaymentRecord session50 "u1" p n) with
  | error e => rfl
  | ok dbA =>
    dsimp only
    rw [if_pos (show (0:Int) < 50 by norm_num)]
    rcases hsplit : CreditManager.addCredits dbA "u1" 50 "purchase" none none t n with ⟨db2, r⟩
    rw [if_pos rfl]

theorem second_delivery_conflicts (dbX : DBState) (p2 t2 n2 : String)
    (hX : ∃ q ∈ dbX.payments, q.stripeSessionId = some "cs_1") :
    handleCheckoutSessionCompleted session50 dbX p2 t2 n2
      = (dbX, Except.error "UNIQUE constraint failed") := by
  rw [handleCheckout_session50_eq]
  have hconf : paymentConflict dbX (checkoutPaymentRecord session50 "u1" p2 n2) = true := by
    obtain ⟨q, hqm, hqs⟩ := hX
    unfold paymentConflict
    rw [List.any_eq_true]
    exact ⟨q, hqm, by simp [checkoutPaymentRecord, session50, hqs]⟩
  rw [show insertPayment dbX (checkoutPaymentRecord session50 "u1" p2 n2)
      = Except.error "UNIQUE constraint failed" from by
    unfold insertPayment
    rw [if_pos hconf]]

/-- Amended claim C5: delivering the 50-credit checkout-completed event twice
    yields exactly one payments row for the checkout session and one +50
    earned ledger row, with the balance increased by 50 exactly once — but the
    duplicate delivery is rejected by the UNIQUE index on stripe_session_id
    and surfaces as a thrown error (the webhook route answers HTTP 400
    "Webhook handler failed"), not as a benign no-op. -/
theorem checkout50_duplicate (db db1 : DBState) (u : User) (p1 t1 n1 p2 t2 n2 : String)
    (hu : findUser db "u1" = some u)
    (h1 : handleCheckoutSessionCompleted session50 db p1 t1 n1 = (db1, Except.ok ())) :
    handleCheckoutSessionCompleted session50 db1 p2 t2 n2
      = (db1, Except.error "UNIQUE constraint failed") ∧
    (db1.payments.filter (fun q => q.stripeSessionId == some "cs_1")).length = 1 ∧
    db1.creditTransactions = db.creditTransactions ++
      [{ id := t1, userId := "u1", type := "earned", amount := 50,
         balance := u.credits.getD 0 + 50, source := "purchase", sourceId := none,
         description := "50 credits added from purchase", createdAt := n1 }] ∧
    userBalance db1 "u1" = u.credits.getD 0 + 50 := by
  have hu_id : (u.id == "u1") = true := by
    simpa using List.find?_some (show db.users.find? (fun v => v.id == "u1") = some u from hu)
  have hdesc : jsOr none (toString (50 : Int) ++ " credits added from " ++ "purchase")
      = "50 credits added from purchase" := by decide
  rw [handleCheckout_session50_eq db p1 t1 n1] at h1
  cases hins : insertPayment db (checkoutPaymentRecord session50 "u1" p1 n1) with
  | error e =>
    rw [hins] at h1
    dsimp only at h1
    exact absurd h1 (by simp)
  | ok dbA =>
    rw [hins] at h1
    dsimp only at h1
    unfold insertPayment at hins
    by_cases hc : paymentConflict db (checkoutPaymentRecord session50 "u1" p1 n1) = true
    · rw [if_pos hc] at hins
      cases hins
    · rw [if_neg hc] at hins
      have hdbA : dbA
          = { db with payments := db.payments ++ [checkoutPaymentRecord session50 "u1" p1 n1] } :=
        (Except.ok.inj hins).symm
      subst hdbA
      have hfindA : findUser
          { db with payments := db.payments ++ [checkoutPaymentRecord session50 "u1" p1 n1] }
          "u1" = some u := hu
      rw [addCredits_success_eq _ "u1" 50 "purchase" none none t1 n1 u hfindA] at h1
      dsimp only at h1
      rw [Prod.mk.injEq] at h1
      obtain ⟨hdb1, -⟩ := h1
      subst hdb1
      refine ⟨?_, ?_, ?_, ?_⟩
      · apply second_delivery_conflicts
        refine ⟨(fun q => if q.stripeSessionId == some "cs_1" then
            { q with creditsGranted := 50, updatedAt := n1 } else q)
            (checkoutPaymentRecord session50 "u1" p1 n1), ?_, ?_⟩
        · exact List.mem_map_of_mem _
            (List.mem_append_right _ (List.mem_singleton_self _))
        · simp [checkoutPaymentRecord, session50]
      · show ((((db.payments ++ [checkoutPaymentRecord session50 "u1" p1 n1]).map
            (fun q => if q.stripeSessionId == some "cs_1" then
              { q with creditsGranted := 50, updatedAt := n1 } else q)).filter
            (fun q => q.stripeSessionId == some "cs_1")).length) = 1
        rw [List.filter_map, List.length_map]
        have hfc : ∀ q ∈ db.payments ++ [checkoutPaymentRecord session50 "u1" p1 n1],
            ((fun q => q.stripeSessionId == some "cs_1") ∘
              (fun q => if q.stripeSessionId == some "cs_1" then
                { q with creditsGranted := 50, updatedAt := n1 } else q)) q
              = (q.stripeSessionId == some "cs_1") := by
          intro q hq
          by_cases hqs : (q.stripeSessionId == some "cs_1") = true
          · have hq' : q.stripeSessionId = some "cs_1" := by simpa using hqs
            simp [hq']
          · have hq' : ¬ q.stripeSessionId = some "cs_1" := by simpa using hqs
            simp [hq']
        rw [List.filter_congr hfc, List.filter_append]
        have hnil : db.payments.filter (fun q => q.stripeSessionId == some "cs_1") = [] := by
          rw [List.filter_eq_nil_iff]
          intro q hq hqs
          apply hc
          unfold paymentConflict
          rw [List.any_eq_true]
          exact ⟨q, hq, by simp [checkoutPaymentRecord, session50, hqs]⟩
        rw [hnil]
        simp [checkoutPaymentRecord, session50]
      · rw [← hdesc]
        rfl
      · rw [userBalance_of_mapped _ db "u1"
            (fun v => { v with credits := some (u.credits.getD 0 + 50), updatedAt := n1 })
            (fun v => rfl) rfl "u1", hu]
        dsimp only
        rw [if_pos hu_id]
        rfl

theorem checkout50_duplicate_witness :
    handleCheckoutSessionCompleted session50
        (handleCheckoutSessionCompleted session50 dbThree "p1" "t1" "n1").1 "p2" "t2" "n2"
      = ((handleCheckoutSessionCompleted session50 dbThree "p1" "t1" "n1").1,
         Except.error "UNIQUE constraint failed") ∧
    ((handleCheckoutSessionCompleted session50 dbThree "p1" "t1" "n1").1.payments.filter
        (fun q => q.stripeSessionId == some "cs_1")).length = 1 ∧
    (handleCheckoutSessionCompleted session50 dbThree "p1" "t1" "n1").1.creditTransactions
      = dbThree.creditTransactions ++
        [{ id := "t1", userId := "u1", type := "earned", amount := 50,
           balance := (sampleUser 3).credits.getD 0 + 50, source := "purchase",
           sourceId := none, description := "50 credits added from purchase",
           createdAt := "n1" }] ∧
    userBalance (handleCheckoutSessionCompleted session50 dbThree "p1" "t1" "n1").1 "u1"
      = (sampleUser 3).credits.getD 0 + 50 :=
  checkout50_duplicate dbThree
    (handleCheckoutSessionCompleted session50 dbThree "p1" "t1" "n1").1 (sampleUser 3)
    "p1" "t1" "n1" "p2" "t2" "n2" (by decide) (by decide)

/-- Counterexample for claim C5: the duplicate delivery of the 50-credit
    checkout event is answered with a thrown unique-constraint error (which
    the webhook route turns into HTTP 400 "Webhook handler failed"), not the
    benign no-op the claim asserts. -/
theorem checkout50_duplicate_is_error :
    (handleCheckoutSessionCompleted session50
        (handleCheckoutSessionCompleted session50 dbThree "p1" "t1" "n1").1 "p2" "t2" "n2").2
      = Except.error "UNIQUE constraint failed" ∧
    (handleCheckoutSessionCompleted session50
        (handleCheckoutSessionCompleted session50 dbThree "p1" "t1" "n1").1 "p2" "t2" "n2").2
      ≠ Except.ok () := by
  refine ⟨by decide, by decide⟩
